import Mathlib

/-
Verification of the agentstr core against its natural-language
specification.  The definitions below are shallow embeddings of
src/agentstr/a2a.py (capability router) and
src/agentstr/nostr_client.py (messaging facade).  Python strings are
Lean Strings, Python ints are Lean Ints, Python None is Option.none,
and code that can raise is embedded in the Except monad; the
try/except blocks of the source become explicit matches on Except.
-/

set_option autoImplicit false

namespace Agentstr

/-! ### Python string primitives used by the router -/

/-- The opening brace character, written by code point. -/
def lbrace : Char := Char.ofNat 123

/-- The closing brace character, written by code point. -/
def rbrace : Char := Char.ofNat 125

/-- Python str.find for a single character: first index or -1. -/
def py_find (s : String) (c : Char) : Int :=
  match s.data.findIdx? (fun x => x == c) with
  | some i => (i : Int)
  | none => -1

/-- Python str.rfind for a single character: last index or -1. -/
def py_rfind (s : String) (c : Char) : Int :=
  match s.data.reverse.findIdx? (fun x => x == c) with
  | some i => (s.data.length : Int) - 1 - (i : Int)
  | none => -1

/-- Clamp a Python slice bound to an index into a string of length n:
negative bounds count from the end and clamp at 0, nonnegative bounds
clamp at n. -/
def py_idx (n : Nat) (i : Int) : Nat :=
  if i < 0 then ((n : Int) + i).toNat else min i.toNat n

/-- Python slicing s[a:b] with possibly negative bounds. -/
def py_slice (s : String) (a b : Int) : String :=
  let n := s.data.length
  let st := py_idx n a
  let en := py_idx n b
  String.mk ((s.data.drop st).take (en - st))

/-- Whitespace characters removed by Python str.strip. -/
def py_space_chars : List Char :=
  [' ', '\t', '\n', '\r', Char.ofNat 11, Char.ofNat 12]

/-- Membership test for Python whitespace. -/
def is_py_space (c : Char) : Bool := py_space_chars.contains c

/-- Python str.strip with no arguments. -/
def py_strip (s : String) : String :=
  String.mk (((s.data.dropWhile is_py_space).reverse.dropWhile is_py_space).reverse)

/-- Python str.lower (on the ASCII alphabet the router uses). -/
def py_lower (s : String) : String :=
  String.mk (s.data.map Char.toLower)

/-! ### JSON values and a model of json.loads

The router parses the completion response with json.loads.  We embed
the JSON values the router can observe and an executable
recursive-descent parser.  Numbers with a fraction or exponent and
backslash-u escapes are not modelled: on those the embedded parser
fails, which only narrows the set of accepted responses. -/

inductive Json where
  | null : Json
  | bool (b : Bool) : Json
  | num (n : Int) : Json
  | str (s : String) : Json
  | arr (elems : List Json) : Json
  | obj (fields : List (String × Json)) : Json
deriving Repr

/-- JSON whitespace skipped between tokens. -/
def json_ws_chars : List Char := [' ', '\t', '\n', '\r']

/-- Membership test for JSON whitespace. -/
def is_json_ws (c : Char) : Bool := json_ws_chars.contains c

/-- Skip JSON whitespace. -/
def skip_ws (cs : List Char) : List Char := cs.dropWhile is_json_ws

/-- The single-character JSON string escapes and what they denote. -/
def esc_table : List (Char × Char) :=
  [('"', '"'), ('\\', '\\'), ('/', '/'), ('n', '\n'), ('t', '\t'), ('r', '\r'),
    ('b', Char.ofNat 8), ('f', Char.ofNat 12)]

/-- Decode a single-character JSON string escape. -/
def esc_char (c : Char) : Option Char :=
  (esc_table.find? (fun p => p.1 == c)).map (fun p => p.2)

/-- Parse the body of a JSON string after the opening quote. -/
def parse_string_chars : Nat → List Char → Except String (String × List Char)
  | 0, _ => .error "fuel exhausted"
  | _ + 1, [] => .error "Unterminated string"
  | fuel + 1, c :: rest =>
    if c == '"' then .ok ("", rest)
    else if c == '\\' then
      match rest with
      | [] => .error "Unterminated string"
      | e :: rest2 =>
        match esc_char e with
        | none => .error "Invalid escape"
        | some ec =>
          match parse_string_chars fuel rest2 with
          | .ok sp => .ok (String.mk (ec :: sp.1.data), sp.2)
          | .error m => .error m
    else if c.toNat < 32 then .error "Invalid control character"
    else
      match parse_string_chars fuel rest with
      | .ok sp => .ok (String.mk (c :: sp.1.data), sp.2)
      | .error m => .error m

/-- Accumulate decimal digits. -/
def digits_to_nat (acc : Nat) : List Char → Nat × List Char
  | [] => (acc, [])
  | c :: rest =>
    if c.isDigit then digits_to_nat (acc * 10 + (c.toNat - 48)) rest
    else (acc, c :: rest)

/-- Parse a JSON integer (fractions and exponents are not modelled). -/
def parse_number (cs : List Char) : Except String (Json × List Char) :=
  let p : Bool × List Char :=
    match cs with
    | c :: rest => if c == '-' then (true, rest) else (false, cs)
    | [] => (false, cs)
  match p.2 with
  | c :: _ =>
    if c.isDigit then
      let dr := digits_to_nat 0 p.2
      match dr.2 with
      | r :: _ =>
        if r == '.' || r == 'e' || r == 'E' then
          .error "numbers with fraction or exponent are not modelled"
        else .ok (if p.1 then Json.num (-(dr.1 : Int)) else Json.num dr.1, dr.2)
      | [] => .ok (if p.1 then Json.num (-(dr.1 : Int)) else Json.num dr.1, dr.2)
    else .error "Expecting value"
  | [] => .error "Expecting value"

/-- Parser modes: a value, the tail of an array, the start of an
object, an object member, or the tail of an object. -/
inductive JMode where
  | value : JMode
  | arrTail (acc : List Json) : JMode
  | objFirst : JMode
  | objMember (acc : List (String × Json)) : JMode
  | objTail (acc : List (String × Json)) : JMode

/-- Fueled recursive-descent JSON parser. -/
def pj : Nat → JMode → List Char → Except String (Json × List Char)
  | 0, _, _ => .error "fuel exhausted"
  | Nat.succ fuel, mode, cs =>
    match mode with
    | .value =>
      match skip_ws cs with
      | [] => .error "Expecting value"
      | 'n' :: 'u' :: 'l' :: 'l' :: rest => .ok (Json.null, rest)
      | 't' :: 'r' :: 'u' :: 'e' :: rest => .ok (Json.bool true, rest)
      | 'f' :: 'a' :: 'l' :: 's' :: 'e' :: rest => .ok (Json.bool false, rest)
      | c :: rest =>
        if c == '"' then
          match parse_string_chars (rest.length + 1) rest with
          | .ok sp => .ok (Json.str sp.1, sp.2)
          | .error m => .error m
        else if c == lbrace then pj fuel .objFirst rest
        else if c == '[' then
          match skip_ws rest with
          | ']' :: rest2 => .ok (Json.arr [], rest2)
          | cs2 =>
            match pj fuel .value cs2 with
            | .error m => .error m
            | .ok vp => pj fuel (.arrTail [vp.1]) vp.2
        else if c == '-' || c.isDigit then parse_number (c :: rest)
        else .error "Expecting value"
    | .arrTail acc =>
      match skip_ws cs with
      | ',' :: rest =>
        match pj fuel .value rest with
        | .error m => .error m
        | .ok vp => pj fuel (.arrTail (vp.1 :: acc)) vp.2
      | ']' :: rest => .ok (Json.arr acc.reverse, rest)
      | _ => .error "Expecting comma or end of array"
    | .objFirst =>
      match skip_ws cs with
      | c :: rest =>
        if c == rbrace then .ok (Json.obj [], rest)
        else pj fuel (.objMember []) (c :: rest)
      | [] => .error "Expecting property name"
    | .objMember acc =>
      match skip_ws cs with
      | c :: rest =>
        if c == '"' then
          match parse_string_chars (rest.length + 1) rest with
          | .error m => .error m
          | .ok kp =>
            match skip_ws kp.2 with
            | ':' :: rest2 =>
              match pj fuel .value rest2 with
              | .error m => .error m
              | .ok vp => pj fuel (.objTail ((kp.1, vp.1) :: acc)) vp.2
            | _ => .error "Expecting colon"
        else .error "Expecting property name"
      | [] => .error "Expecting property name"
    | .objTail acc =>
      match skip_ws cs with
      | ',' :: rest => pj fuel (.objMember acc) rest
      | c :: rest =>
        if c == rbrace then .ok (Json.obj acc.reverse, rest)
        else .error "Expecting comma or end of object"
      | [] => .error "Expecting comma or end of object"

/-- Model of json.loads: parse one value, then require only trailing
whitespace (Python raises Extra data otherwise). -/
def py_json_loads (s : String) : Except String Json :=
  match pj (2 * s.data.length + 4) .value s.data with
  | .error m => .error m
  | .ok vp => if (skip_ws vp.2).isEmpty then .ok vp.1 else .error "Extra data"

example : py_json_loads "" = .error "Expecting value" := rfl

example :
    py_json_loads "\x7b\"can_handle\": true, \"skills_used\": [\"translate\"]\x7d" =
      .ok (Json.obj [("can_handle", Json.bool true),
                     ("skills_used", Json.arr [Json.str "translate"])]) := rfl

example : py_json_loads "\x7b\x7d" = .ok (Json.obj []) := rfl

example : py_json_loads "[1, -2, null]" =
    .ok (Json.arr [Json.num 1, Json.num (-2), Json.null]) := rfl

/-! ### Data model of a2a.py -/

/-- Skill (a2a.py 6-31): a named, described, optionally priced capability. -/
structure Skill where
  name : String
  description : String
  satoshis : Option Int := none

/-- AgentCard (a2a.py 34-60): the capability model of an agent. -/
structure AgentCard where
  name : String
  description : String
  skills : List Skill := []
  satoshis : Option Int := none
  nostr_pubkey : String
  nostr_relays : List String := []

/-- The four components of the tuple agent_router returns.  The
decoded can_handle, user_message and skills_used fields are returned
raw, so they are Json values; the cost is a Python int. -/
structure Decision where
  canHandle : Json
  cost : Int
  userMessage : Json
  skillsUsed : Json

/-- A Python exception escaping a statement of the inner try block:
ValueError (and its subclass JSONDecodeError) is caught by the inner
handler, every other exception only by the outer handler. -/
inductive PyErr where
  | valueErr (msg : String) : PyErr
  | otherErr (msg : String) : PyErr

/-- The recovery decisions built by the two except handlers
(a2a.py 194-200). -/
def err_decision : PyErr → Decision
  | .valueErr m =>
    ⟨Json.bool false, 0, Json.str ("Error parsing LLM response: " ++ m), Json.arr []⟩
  | .otherErr m =>
    ⟨Json.bool false, 0, Json.str ("Error in agent routing: " ++ m), Json.arr []⟩

/-- The outcome of calling llm_callable: a string, a value of another
type (whose .find attribute access then raises), or a raised
exception. -/
inductive LLMResult where
  | str (s : String) : LLMResult
  | nonStr (ty : String) : LLMResult
  | raise (e : String) : LLMResult

/-- The pluggable completion capability. -/
abbrev LLM := String → LLMResult

/-- CHAT_HISTORY (a2a.py 92): process-wide map from thread id to
accumulated text, embedded as a function store. -/
abbrev Store := String → Option String

/-- The store with no threads. -/
def empty_store : Store := fun _ => none

/-! ### The router (a2a.py 95-222) -/

/-- The enumerated skill lines of the prompt (a2a.py 131-132). -/
def prompt_skills (skills : List Skill) : String :=
  String.join (skills.map (fun sk => "\n- " ++ sk.name ++ ": " ++ sk.description))

/-- The prompt text preceding the request history (a2a.py 123-134). -/
def prompt_head (card : AgentCard) : String :=
  "You are an agent router that determines if an agent can handle a user\x27s request.\n\nAgent Information:\nName: "
    ++ card.name ++ "\nDescription: " ++ card.description ++ "\n\nSkills:"
    ++ prompt_skills card.skills ++ "\n\nUser Request History: \n\n"

/-- The prompt text following the request history (a2a.py 134-154). -/
def prompt_tail : String :=
  "\n\n"
    ++ "\nAnalyze if the agent can handle this request based on their skills and description and chat history.\nConsider both the agent\x27s capabilities and whether the request matches their purpose.\n\nThe agent may need to use multiple skills to handle the request. If so, include all\nrelevant skills.\n\nThe user_message should be a friendly, conversational message that:\n- Confirms the action to be taken\n- Explains what will be done in simple terms\n- Asks for confirmation to proceed\n- Is concise (1-2 sentences max)\n\nRespond with a JSON object with these fields:\n\x7b\n    \"can_handle\": boolean,    # Whether the agent can handle this request\n    \"user_message\": string,   # Friendly message to ask the user if they want to proceed\n    \"skills_used\": [string]   # Names of skills being used, if any\n\x7d\n    "

/-- The full prompt handed to the completion capability. -/
def agent_prompt (card : AgentCard) (um : String) : String :=
  prompt_head card ++ um ++ prompt_tail

/-- The history-augmented request text (a2a.py 113-115): when the
thread id is truthy and has prior state, the stored text is prepended,
separated by a blank line. -/
def combined_text (st : Store) (tid : Option String) (msg : String) : String :=
  match tid with
  | some t =>
    if t == "" then msg
    else
      match st t with
      | some prev => prev ++ "\n\n" ++ msg
      | none => msg
  | none => msg

/-- The store after the history update (a2a.py 116-117): when the
thread id is truthy, the combined text replaces the entry. -/
def new_store (st : Store) (tid : Option String) (msg : String) : Store :=
  match tid with
  | some t =>
    if t == "" then st
    else fun k => if k = t then some (combined_text st tid msg) else st k
  | none => st

/-- The lenient brace extraction (a2a.py 161):
response[response.find(lbrace) : response.rfind(rbrace) + 1]. -/
def extract_braces (s : String) : String :=
  py_slice s (py_find s lbrace) (py_rfind s rbrace + 1)

/-- Python dict lookup: with duplicate keys json.loads keeps the last
occurrence. -/
def lookup_last (kvs : List (String × Json)) (key : String) : Option Json :=
  (kvs.reverse.find? (fun kv => kv.1 == key)).map (fun kv => kv.2)

/-- result.get(key, default): a dict lookup with a default; on a
non-dict the attribute access raises. -/
def dict_get (j : Json) (key : String) (dflt : Json) : Except PyErr Json :=
  match j with
  | .obj kvs => .ok ((lookup_last kvs key).getD dflt)
  | _ => .error (.otherErr "object has no attribute get")

/-- Reading the three fields with their defaults (a2a.py 167-171). -/
def decode_fields (j : Json) : Except PyErr (Json × Json × Json) :=
  match dict_get j "can_handle" (Json.bool false) with
  | .error e => .error e
  | .ok canH =>
    match dict_get j "user_message" (Json.str "") with
    | .error e => .error e
    | .ok um =>
      match dict_get j "skills_used" (Json.arr []) with
      | .error e => .error e
      | .ok su => .ok (canH, um, su)

/-- The decode pipeline of the inner try block (a2a.py 161-171):
brace extraction, strip, json.loads, field reads.  A parse failure is
a ValueError. -/
def decode_response (resp : String) : Except PyErr (Json × Json × Json) :=
  match py_json_loads (py_strip (extract_braces resp)) with
  | .error m => .error (PyErr.valueErr m)
  | .ok j => decode_fields j

/-- Python truthiness of a decoded JSON value. -/
def json_truthy : Json → Bool
  | .null => false
  | .bool b => b
  | .num n => !(n == 0)
  | .str s => !(s == "")
  | .arr xs => !xs.isEmpty
  | .obj kvs => !kvs.isEmpty

/-- Python iteration over the skills_used value: lists yield their
elements, strings their characters, dicts their keys; other values
raise TypeError. -/
def iter_elems : Json → Except PyErr (List Json)
  | .arr xs => .ok xs
  | .str s => .ok (s.data.map (fun c => Json.str (String.mk [c])))
  | .obj kvs => .ok (kvs.map (fun kv => Json.str kv.1))
  | _ => .error (.otherErr "object is not iterable")

/-- The inner loop over agent_card.skills (a2a.py 180-183): the first
skill matching the name case-insensitively and carrying a price
contributes its price, then the loop breaks.  Comparing against a
non-string name raises at the first skill. -/
def inner_match (skills : List Skill) (nameJ : Json) : Except PyErr Int :=
  match skills with
  | [] => .ok 0
  | sk :: rest =>
    match nameJ with
    | .str n =>
      if py_lower sk.name == py_lower n && sk.satoshis.isSome then .ok (sk.satoshis.getD 0)
      else inner_match rest nameJ
    | _ => .error (.otherErr "object has no attribute lower")

/-- The outer loop over skills_used (a2a.py 178-183), accumulating
skill_cost. -/
def skill_cost_fold (skills : List Skill) : List Json → Int → Except PyErr Int
  | [], acc => .ok acc
  | nameJ :: rest, acc =>
    match inner_match skills nameJ with
    | .error e => .error e
    | .ok add => skill_cost_fold skills rest (acc + add)

/-- The pricing block (a2a.py 174-189): cost is 0 unless can_handle is
truthy; skill pricing applies only when skills_used is truthy and the
summed skill cost is strictly positive; the base price is then added
if set. -/
def cost_block (card : AgentCard) (canH su : Json) : Except PyErr Int :=
  if json_truthy canH then
    match
      ((if json_truthy su then
        match iter_elems su with
        | .error e => .error e
        | .ok elems =>
          match skill_cost_fold card.skills elems 0 with
          | .error e => .error e
          | .ok sc => .ok (if 0 < sc then sc else 0)
      else .ok 0) : Except PyErr Int) with
    | .error e => .error e
    | .ok sc =>
      .ok (sc + (match card.satoshis with | some b => b | none => 0))
  else .ok 0

/-- The body of the try blocks (a2a.py 156-200): invoke the
completion, decode leniently, price, and recover locally from every
failure via err_decision. -/
def route_response (card : AgentCard) (r : LLMResult) : Decision :=
  match r with
  | .raise e => err_decision (.otherErr e)
  | .nonStr ty => err_decision (.otherErr (ty ++ " object has no attribute find"))
  | .str resp =>
    match decode_response resp with
    | .error e => err_decision e
    | .ok cus =>
      match cost_block card cus.1 cus.2.2 with
      | .error e => err_decision e
      | .ok cost => ⟨cus.1, cost, cus.2.1, cus.2.2⟩

/-- agent_router (a2a.py 95-200): update the conversation store, build
the prompt, invoke the completion capability and assemble the
decision.  The function is total: both except handlers are part of
route_response, so no failure escapes. -/
def agent_router (st : Store) (user_message : String) (card : AgentCard) (llm : LLM)
    (thread_id : Option String) : Store × Decision :=
  let um1 := combined_text st thread_id user_message
  let st1 := new_store st thread_id user_message
  (st1, route_response card (llm (agent_prompt card um1)))

/-- RouterResponse (a2a.py 77-89): a pydantic model with typed,
validated fields. -/
structure RouterResponse where
  can_handle : Bool
  cost_sats : Int := 0
  user_message : String := ""
  skills_used : List String := []
deriving DecidableEq

/-- The strings pydantic lax mode coerces to True (case-insensitive). -/
def pyd_true_strs : List String := ["true", "t", "yes", "y", "on", "1"]

/-- The strings pydantic lax mode coerces to False (case-insensitive). -/
def pyd_false_strs : List String := ["false", "f", "no", "n", "off", "0"]

/-- Pydantic lax validation of a bool field: a bool passes, the ints 0
and 1 and the recognized strings coerce, everything else raises a
ValidationError. -/
def validate_bool (j : Json) : Except String Bool :=
  match j with
  | .bool b => .ok b
  | .num n =>
    if n == 0 then .ok false
    else if n == 1 then .ok true
    else .error "Input should be a valid boolean"
  | .str s =>
    if pyd_true_strs.contains (py_lower s) then .ok true
    else if pyd_false_strs.contains (py_lower s) then .ok false
    else .error "Input should be a valid boolean"
  | _ => .error "Input should be a valid boolean"

/-- Pydantic validation of a str field: only a string passes. -/
def validate_str (j : Json) : Except String String :=
  match j with
  | .str s => .ok s
  | _ => .error "Input should be a valid string"

/-- Validate every element of a list as a str field. -/
def validate_strs : List Json → Except String (List String)
  | [] => .ok []
  | j :: rest =>
    match validate_str j with
    | .error e => .error e
    | .ok s =>
      match validate_strs rest with
      | .error e => .error e
      | .ok l => .ok (s :: l)

/-- Pydantic validation of a list of str field: only a list of strings
passes. -/
def validate_str_list (j : Json) : Except String (List String) :=
  match j with
  | .arr xs => validate_strs xs
  | _ => .error "Input should be a valid list"

/-- Constructing RouterResponse(...) runs pydantic validation on the
passed values.  cost_sats is computed by the router as an int, so its
validation always succeeds; the other three are the raw decoded
values, so construction can coerce them or raise a ValidationError. -/
def mk_router_response (canH : Json) (cost : Int) (um : Json) (su : Json) :
    Except String RouterResponse :=
  match validate_bool canH with
  | .error e => .error e
  | .ok b =>
    match validate_str um with
    | .error e => .error e
    | .ok s =>
      match validate_str_list su with
      | .error e => .error e
      | .ok l => .ok ⟨b, cost, s, l⟩

/-- agent_router_v2 (a2a.py 203-222): call agent_router and hand the
four tuple components to the RouterResponse constructor.  There is no
try/except here, so a ValidationError raised by the constructor
propagates to the caller. -/
def agent_router_v2 (st : Store) (user_message : String) (card : AgentCard) (llm : LLM)
    (thread_id : Option String) : Store × Except String RouterResponse :=
  let r := agent_router st user_message card llm thread_id
  (r.1, mk_router_response r.2.canHandle r.2.cost r.2.userMessage r.2.skillsUsed)

/-- Spec section 8 scenario card: one priced skill and a base price. -/
def card₀ : AgentCard :=
  { name := "Translator"
    description := "Translates text"
    skills := [{ name := "translate", description := "Translate text", satoshis := some 100 }]
    satoshis := some 50
    nostr_pubkey := "pk" }

example :
    (agent_router empty_store "translate this" card₀
      (fun _ => LLMResult.str "\x7b\"can_handle\": true, \"user_message\": \"Sure.\", \"skills_used\": [\"translate\"]\x7d")
      none).2.cost = 150 := rfl

example :
    (agent_router empty_store "translate this" card₀
      (fun _ => LLMResult.str "\x7b\"can_handle\": true, \"user_message\": \"Sure.\", \"skills_used\": []\x7d")
      none).2.cost = 50 := rfl

example :
    (agent_router empty_store "hi" card₀ (fun _ => LLMResult.str "\x7b\x7d") none).2.userMessage
      = Json.str "" := rfl

example :
    (agent_router empty_store "hi" card₀ (fun _ => LLMResult.str "no json here") none).2.userMessage
      = Json.str "Error parsing LLM response: Expecting value" := rfl

/-! ### Metadata update (nostr_client.py 100-149)

The pynostr Metadata object is embedded as its ten optional profile
fields; its serialized content is a deterministic function of exactly
these fields, so content equality is field-record equality. -/

/-- The ten profile fields of a kind-0 metadata event. -/
structure Metadata where
  name : Option String := none
  about : Option String := none
  nip05 : Option String := none
  picture : Option String := none
  banner : Option String := none
  lud16 : Option String := none
  lud06 : Option String := none
  username : Option String := none
  display_name : Option String := none
  website : Option String := none
deriving DecidableEq

/-- The optional keyword arguments of update_metadata. -/
structure MetadataArgs where
  name : Option String := none
  about : Option String := none
  nip05 : Option String := none
  picture : Option String := none
  banner : Option String := none
  lud16 : Option String := none
  lud06 : Option String := none
  username : Option String := none
  display_name : Option String := none
  website : Option String := none

/-- One field of the overlay: the Python statement
if arg: metadata.field = arg.  An argument that is None or the empty
string is falsy and leaves the field unchanged. -/
def overlay_field (old arg : Option String) : Option String :=
  match arg with
  | some s => if s == "" then old else some s
  | none => old

/-- The overlay of update_metadata (nostr_client.py 120-142): start
from the previous metadata when present, then apply each truthy
argument. -/
def apply_update (prev : Option Metadata) (a : MetadataArgs) : Metadata :=
  let m := prev.getD {}
  { name := overlay_field m.name a.name
    about := overlay_field m.about a.about
    nip05 := overlay_field m.nip05 a.nip05
    picture := overlay_field m.picture a.picture
    banner := overlay_field m.banner a.banner
    lud16 := overlay_field m.lud16 a.lud16
    lud06 := overlay_field m.lud06 a.lud06
    username := overlay_field m.username a.username
    display_name := overlay_field m.display_name a.display_name
    website := overlay_field m.website a.website }

/-- update_metadata (nostr_client.py 100-149) against a relay whose
stored state is the latest published metadata: fetch the previous
metadata, overlay, and publish the result unless the previous content
equals the new content.  Returns the new relay state and the number of
publish calls issued (0 or 1). -/
def update_metadata (stored : Option Metadata) (a : MetadataArgs) : Option Metadata × Nat :=
  let m := apply_update stored a
  match stored with
  | some p => if p = m then (stored, 0) else (some m, 1)
  | none => (some m, 1)

example :
    update_metadata (some { name := some "A" }) { name := some "" } =
      (some { name := some "A" }, 0) := rfl

example :
    (update_metadata none { name := some "X" }).2 = 1 := rfl

/-! ### Listeners (nostr_client.py 169-213) -/

/-- The protocol event kinds the facade passes to the collaborator. -/
inductive EventKind where
  | text_note : EventKind
  | encrypted_direct_message : EventKind
  | set_metadata : EventKind
deriving DecidableEq

/-- The pynostr Filters object as the listeners build it. -/
structure Filters where
  authors : Option (List String) := none
  kinds : List EventKind := []
  since : Nat := 0
  pubkey_refs : Option (List String) := none
  limit : Nat := 0
  t_tags : Option (List String) := none
deriving DecidableEq

/-- Python "timestamp or get_timestamp()": the given timestamp when it
is truthy (not None and nonzero), else the current time. -/
def since_or_now (timestamp : Option Nat) (now : Nat) : Nat :=
  match timestamp with
  | some t => if t == 0 then now else t
  | none => now

/-- Where the listening loop executes: on a spawned thread or in the
calling context. -/
inductive LoopMode where
  | spawned_thread : LoopMode
  | caller_context : LoopMode
deriving DecidableEq

/-- A started listener: the filters handed to the collaborator and
where its loop runs. -/
structure ListenerStart where
  filters : Filters
  mode : LoopMode

/-- Modelled from the spec: the Event Relay Collaborator (whose source
is not under src/) provides the subscription loop, which runs until
timeout, close-after-first or process end; an invocation of that loop
in the calling context therefore does not return until the loop ends,
and only a spawned thread lets the call return at once. -/
def returns_without_waiting : LoopMode → Bool
  | .spawned_thread => true
  | .caller_context => false

/-- note_listener (nostr_client.py 169-195): build filters for public
notes and start the collaborator event loop on a new thread via
threading.Thread(...).start().  get_public_key(...).hex() is the
abstract key normalizer getPk; get_timestamp() is now. -/
def note_listener (getPk : String → String) (now : Nat)
    (pubkeys : Option (List String)) (tags : Option (List String))
    (timestamp : Option Nat) : ListenerStart :=
  let authors : Option (List String) :=
    match pubkeys with
    | some pks => if pks.isEmpty then none else some (pks.map getPk)
    | none => none
  let base : Filters :=
    { authors := authors
      kinds := [EventKind.text_note]
      since := since_or_now timestamp now
      limit := 10 }
  let withTags : Filters :=
    match tags with
    | some ts => if ts.isEmpty then base else { base with t_tags := some ts }
    | none => base
  { filters := withTags, mode := LoopMode.spawned_thread }

/-- direct_message_listener (nostr_client.py 197-213): build filters
for encrypted direct messages addressed to the own key and invoke the
collaborator listener directly in the calling context. -/
def direct_message_listener (getPk : String → String) (selfPk : String) (now : Nat)
    (recipient_pubkey : Option String) (timestamp : Option Nat) : ListenerStart :=
  let authors : Option (List String) :=
    match recipient_pubkey with
    | some pk => if pk == "" then none else some [getPk pk]
    | none => none
  { filters :=
      { authors := authors
        kinds := [EventKind.encrypted_direct_message]
        since := since_or_now timestamp now
        pubkey_refs := some [selfPk]
        limit := 10 }
    mode := LoopMode.caller_context }

/-! ### Send and await a response (nostr_client.py 160-167) -/

/-- A decrypted direct message. -/
structure DecryptedMessage where
  sender : String
  content : String
deriving DecidableEq

/-- The outcome of a send-and-wait: a correlated reply, or the
distinct no-response condition. -/
inductive SendReceiveOutcome where
  | reply (m : DecryptedMessage) : SendReceiveOutcome
  | no_response : SendReceiveOutcome
deriving DecidableEq

/-- Modelled from the spec: EventRelay.send_receive_message (whose
source is not under src/) sends the message and blocks until a reply
correlated to the sent event arrives or the timeout elapses; the
correlated reply arriving within the timeout, if any, is abstracted as
the arrival argument.  On timeout it yields the distinct no-response
outcome instead of hanging. -/
def send_receive_message (recipient message : String) (timeout : Nat)
    (arrival : Option DecryptedMessage) : SendReceiveOutcome :=
  match arrival with
  | some m => SendReceiveOutcome.reply m
  | none => SendReceiveOutcome.no_response

/-- send_direct_message_and_receive_response (nostr_client.py
160-167): delegate to the collaborator send-and-wait. -/
def send_direct_message_and_receive_response (recipient message : String) (timeout : Nat)
    (arrival : Option DecryptedMessage) : SendReceiveOutcome :=
  send_receive_message recipient message timeout arrival

/-! ### Claim-side definitions and helper lemmas -/

/-- The pricing rule in the words of the spec: for each name in
skills_used, the price of the (first) skill matched case-insensitively
by name that carries a price, summed over the names. -/
def claim_skill_sum (skills : List Skill) (names : List String) : Int :=
  (names.map (fun n =>
    match skills.find? (fun sk => py_lower sk.name == py_lower n && sk.satoshis.isSome) with
    | some sk => sk.satoshis.getD 0
    | none => 0)).sum

theorem inner_match_eq_find (skills : List Skill) (n : String) :
    inner_match skills (Json.str n) =
      Except.ok
        (match skills.find? (fun sk => py_lower sk.name == py_lower n && sk.satoshis.isSome) with
          | some sk => sk.satoshis.getD 0
          | none => 0) := by
  induction skills with
  | nil => rfl
  | cons sk rest ih =>
    rw [List.find?]
    by_cases h : (py_lower sk.name == py_lower n && sk.satoshis.isSome) = true
    · simp only [inner_match, h, if_pos]
    · rw [Bool.not_eq_true] at h
      simp only [inner_match, h, Bool.false_eq_true, if_false, ih]

theorem skill_cost_fold_str (skills : List Skill) (names : List String) (acc : Int) :
    skill_cost_fold skills (names.map Json.str) acc =
      Except.ok (acc + claim_skill_sum skills names) := by
  induction names generalizing acc with
  | nil => simp [skill_cost_fold, claim_skill_sum]
  | cons n rest ih =>
    simp only [List.map_cons, skill_cost_fold, inner_match_eq_find]
    rw [ih]
    simp only [claim_skill_sum, List.map_cons, List.sum_cons]
    rw [add_assoc]

theorem cost_block_true_strs (card : AgentCard) (names : List String) :
    cost_block card (Json.bool true) (Json.arr (names.map Json.str)) =
      Except.ok
        ((if 0 < claim_skill_sum card.skills names then claim_skill_sum card.skills names else 0)
          + (match card.satoshis with | some b => b | none => 0)) := by
  cases names with
  | nil => simp [cost_block, json_truthy, claim_skill_sum]
  | cons n rest =>
    have hb : json_truthy (Json.bool true) = true := rfl
    have ht : json_truthy (Json.arr (List.map Json.str (n :: rest))) = true := rfl
    have hi : iter_elems (Json.arr (List.map Json.str (n :: rest))) =
        Except.ok (List.map Json.str (n :: rest)) := rfl
    have hf := skill_cost_fold_str card.skills (n :: rest) 0
    rw [zero_add] at hf
    simp only [cost_block, hb, ht, eq_self_iff_true, if_true, hi, hf]

/-- The spec section 8 scenario response. -/
def resp₀ : String :=
  "\x7b\"can_handle\": true, \"user_message\": \"Sure.\", \"skills_used\": [\"translate\"]\x7d"

/-- A completion capability returning the scenario response. -/
def llm₀ : LLM := fun _ => LLMResult.str resp₀

/-! ### The claims -/

/-- C1: for every agent card and every route call whose completion
response decodes with can_handle true, costUnits equals the sum, over
each name in skills_used, of the price of a skill in the card matched
case-insensitively by name with a price set, plus the base price if
set, where the skill-derived component is used only when that sum is
strictly positive; and whenever canHandle is false, costUnits is 0. -/
theorem agent_router_cost_rule (st : Store) (msg : String) (card : AgentCard)
    (llm : LLM) (tid : Option String) :
    (∀ resp um names,
      llm (agent_prompt card (combined_text st tid msg)) = LLMResult.str resp →
      decode_response resp =
        Except.ok (Json.bool true, um, Json.arr (names.map Json.str)) →
      (agent_router st msg card llm tid).2.cost =
        (if 0 < claim_skill_sum card.skills names then claim_skill_sum card.skills names
          else 0) + (match card.satoshis with | some b => b | none => 0)) ∧
    ((agent_router st msg card llm tid).2.canHandle = Json.bool false →
      (agent_router st msg card llm tid).2.cost = 0) := by
  have hag : (agent_router st msg card llm tid).2 =
      route_response card (llm (agent_prompt card (combined_text st tid msg))) := rfl
  constructor
  · intro resp um names h1 h2
    rw [hag, h1]
    simp only [route_response, h2, cost_block_true_strs]
  · intro h
    rw [hag] at h ⊢
    cases hr : llm (agent_prompt card (combined_text st tid msg)) with
    | raise e => rfl
    | nonStr ty => rfl
    | str resp =>
      rw [hr] at h
      simp only [route_response] at h ⊢
      cases hd : decode_response resp with
      | error e =>
        simp only [hd] at h ⊢
        cases e <;> rfl
      | ok cus =>
        obtain ⟨c, u, s⟩ := cus
        simp only [hd] at h ⊢
        cases hc : cost_block card c s with
        | error e =>
          simp only [hc] at h ⊢
          cases e <;> rfl
        | ok cost =>
          simp only [hc] at h ⊢
          subst h
          rw [show cost_block card (Json.bool false) s = Except.ok 0 from rfl] at hc
          injection hc with h0
          omega

/-- Witness for C1 at the spec section 8 scenario: one skill priced
100 plus a base price of 50 gives cost 150. -/
theorem agent_router_cost_rule_witness :
    (agent_router empty_store "translate this" card₀ llm₀ none).2.cost = 150 := by
  have h := (agent_router_cost_rule empty_store "translate this" card₀ llm₀ none).1
    resp₀ (Json.str "Sure.") ["translate"] rfl rfl
  rw [h]
  decide

/-- C2: for every sequence of route calls sharing the same thread id,
the stored accumulated text equals the verbatim concatenation of the
previously stored text (if any) and the newest raw request, separated
by a blank line; and after routing hello then please translate on
thread t1, the prompt built for the second call contains hello
textually preceding please translate. -/
theorem conversation_accumulation (st : Store) (msg : String) (t : String)
    (card : AgentCard) (llm : LLM) :
    (t ≠ "" →
      (agent_router st msg card llm (some t)).1 t =
        some (match st t with
          | some prev => prev ++ "\n\n" ++ msg
          | none => msg)) ∧
    (∃ a b c : String,
      agent_prompt card₀
        (combined_text ((agent_router empty_store "hello" card₀ llm₀ (some "t1")).1)
          (some "t1") "please translate") =
        a ++ "hello" ++ b ++ "please translate" ++ c) := by
  constructor
  · intro ht
    have hb : (t == "") = false := by simpa using ht
    simp only [agent_router, new_store, hb, Bool.false_eq_true, if_false, if_pos rfl,
      combined_text]
    exact if_pos trivial
  · refine ⟨prompt_head card₀, "\n\n", prompt_tail, ?_⟩
    have hc : combined_text ((agent_router empty_store "hello" card₀ llm₀ (some "t1")).1)
        (some "t1") "please translate" = "hello" ++ "\n\n" ++ "please translate" := rfl
    rw [show agent_prompt card₀
          (combined_text ((agent_router empty_store "hello" card₀ llm₀ (some "t1")).1)
            (some "t1") "please translate") =
        prompt_head card₀ ++
          combined_text ((agent_router empty_store "hello" card₀ llm₀ (some "t1")).1)
            (some "t1") "please translate" ++ prompt_tail from rfl, hc]
    simp only [String.append_assoc]

/-- Witness for C2: after routing hello on thread t1, the stored text
for t1 is hello. -/
theorem conversation_accumulation_witness :
    (agent_router empty_store "hello" card₀ llm₀ (some "t1")).1 "t1" = some "hello" := by
  have h := (conversation_accumulation empty_store "hello" "t1" card₀ llm₀).1 (by decide)
  exact h

/-- C3: route never raises: it is a total function into decisions, and
every invocation or decode failure is encoded as a decision with
canHandle false, costUnits 0, a non-empty diagnostic userMessage and
empty skillsUsed. -/
theorem agent_router_never_raises (st : Store) (msg : String) (card : AgentCard)
    (llm : LLM) (tid : Option String) :
    (∃ st1 d, agent_router st msg card llm tid = (st1, d)) ∧
    (∀ e, llm (agent_prompt card (combined_text st tid msg)) = LLMResult.raise e →
      (agent_router st msg card llm tid).2 =
        ⟨Json.bool false, 0, Json.str ("Error in agent routing: " ++ e), Json.arr []⟩) ∧
    (∀ ty, llm (agent_prompt card (combined_text st tid msg)) = LLMResult.nonStr ty →
      (agent_router st msg card llm tid).2 =
        ⟨Json.bool false, 0,
          Json.str ("Error in agent routing: " ++ (ty ++ " object has no attribute find")),
          Json.arr []⟩) ∧
    (∀ resp e, llm (agent_prompt card (combined_text st tid msg)) = LLMResult.str resp →
      decode_response resp = Except.error e →
      (agent_router st msg card llm tid).2 = err_decision e) ∧
    (∀ resp cus e, llm (agent_prompt card (combined_text st tid msg)) = LLMResult.str resp →
      decode_response resp = Except.ok cus →
      cost_block card cus.1 cus.2.2 = Except.error e →
      (agent_router st msg card llm tid).2 = err_decision e) ∧
    (∀ e, (err_decision e).canHandle = Json.bool false ∧ (err_decision e).cost = 0 ∧
      (err_decision e).skillsUsed = Json.arr [] ∧ (err_decision e).userMessage ≠ Json.str "") := by
  have hag : (agent_router st msg card llm tid).2 =
      route_response card (llm (agent_prompt card (combined_text st tid msg))) := rfl
  refine ⟨⟨_, _, rfl⟩, ?_, ?_, ?_, ?_, ?_⟩
  · intro e h1
    rw [hag, h1]
    rfl
  · intro ty h1
    rw [hag, h1]
    rfl
  · intro resp e h1 h2
    rw [hag, h1]
    simp only [route_response, h2]
  · intro resp cus e h1 h2 h3
    rw [hag, h1]
    obtain ⟨c, u, s⟩ := cus
    simp only [route_response, h2, h3]
  · intro e
    cases e with
    | valueErr m =>
      refine ⟨rfl, rfl, rfl, ?_⟩
      intro h
      have hm : "Error parsing LLM response: " ++ m = "" := by
        injection h
      have h2 := congrArg String.length hm
      rw [String.length_append] at h2
      have h3 : 28 + m.length = 0 := h2
      omega
    | otherErr m =>
      refine ⟨rfl, rfl, rfl, ?_⟩
      intro h
      have hm : "Error in agent routing: " ++ m = "" := by
        injection h
      have h2 := congrArg String.length hm
      rw [String.length_append] at h2
      have h3 : 24 + m.length = 0 := h2
      omega

/-- Witness for C3: a completion capability that raises yields the
diagnostic negative decision. -/
theorem agent_router_never_raises_witness :
    (agent_router empty_store "hi" card₀ (fun _ => LLMResult.raise "boom") none).2 =
      ⟨Json.bool false, 0, Json.str "Error in agent routing: boom", Json.arr []⟩ :=
  (agent_router_never_raises empty_store "hi" card₀
    (fun _ => LLMResult.raise "boom") none).2.1 "boom" rfl

theorem py_find_eq_neg_one {s : String} {c : Char} (h : c ∉ s.data) : py_find s c = -1 := by
  have hn : s.data.findIdx? (fun x => x == c) = none := by
    rw [List.findIdx?_eq_none_iff]
    intro x hx
    simp only [beq_eq_false_iff_ne, ne_eq]
    rintro rfl
    exact h hx
  simp only [py_find, hn]

theorem py_rfind_eq_neg_one {s : String} {c : Char} (h : c ∉ s.data) : py_rfind s c = -1 := by
  have hn : s.data.reverse.findIdx? (fun x => x == c) = none := by
    rw [List.findIdx?_eq_none_iff]
    intro x hx
    simp only [beq_eq_false_iff_ne, ne_eq]
    rintro rfl
    exact h (List.mem_reverse.mp hx)
  simp only [py_rfind, hn]

theorem no_brace_extract (s : String) (h1 : lbrace ∉ s.data) (h2 : rbrace ∉ s.data) :
    extract_braces s = "" := by
  unfold extract_braces
  rw [py_find_eq_neg_one h1, py_rfind_eq_neg_one h2]
  norm_num
  simp [py_slice, py_idx]

/-- C4 counterexample: the completion response that is an object with
no fields decodes successfully, so the claimed non-empty diagnostic
userMessage does not appear: the decision carries the empty default
user_message. -/
theorem missing_fields_empty_user_message :
    (agent_router empty_store "hi" card₀ (fun _ => LLMResult.str "\x7b\x7d") none).2 =
      ⟨Json.bool false, 0, Json.str "", Json.arr []⟩ := rfl

/-- C4 amended: a completion response that is plain text with no
braces yields canHandle false, costUnits 0, a non-empty diagnostic
userMessage and empty skillsUsed; a decoded JSON object missing the
required fields yields canHandle false, costUnits 0 and empty
skillsUsed, but its userMessage is the empty-string default rather
than a diagnostic. -/
theorem malformed_response_recovery (st : Store) (msg : String) (card : AgentCard)
    (llm : LLM) (tid : Option String) :
    (∀ resp, llm (agent_prompt card (combined_text st tid msg)) = LLMResult.str resp →
      lbrace ∉ resp.data → rbrace ∉ resp.data →
      (agent_router st msg card llm tid).2 =
        ⟨Json.bool false, 0, Json.str "Error parsing LLM response: Expecting value",
          Json.arr []⟩ ∧
      (agent_router st msg card llm tid).2.userMessage ≠ Json.str "") ∧
    (∀ resp kvs, llm (agent_prompt card (combined_text st tid msg)) = LLMResult.str resp →
      py_json_loads (py_strip (extract_braces resp)) = Except.ok (Json.obj kvs) →
      lookup_last kvs "can_handle" = none →
      lookup_last kvs "user_message" = none →
      lookup_last kvs "skills_used" = none →
      (agent_router st msg card llm tid).2 =
        ⟨Json.bool false, 0, Json.str "", Json.arr []⟩) := by
  have hag : (agent_router st msg card llm tid).2 =
      route_response card (llm (agent_prompt card (combined_text st tid msg))) := rfl
  constructor
  · intro resp h1 hb1 hb2
    have he : extract_braces resp = "" := no_brace_extract resp hb1 hb2
    have hdr : decode_response resp = Except.error (PyErr.valueErr "Expecting value") := by
      simp only [decode_response, he]
      rfl
    rw [hag, h1]
    constructor
    · simp only [route_response, hdr]
      rfl
    · simp only [route_response, hdr]
      rw [show (err_decision (PyErr.valueErr "Expecting value")).userMessage =
            Json.str "Error parsing LLM response: Expecting value" from rfl]
      intro hcon
      injection hcon with hcon2
      exact absurd hcon2 (by decide)
  · intro resp kvs h1 h2 hc hu hs
    have hdr : decode_response resp =
        Except.ok (Json.bool false, Json.str "", Json.arr []) := by
      simp only [decode_response, h2, decode_fields, dict_get, hc, hu, hs, Option.getD]
    rw [hag, h1]
    simp only [route_response, hdr]
    rfl

/-- Witness for C4 at a brace-free response. -/
theorem malformed_response_recovery_witness :
    (agent_router empty_store "hi" card₀ (fun _ => LLMResult.str "no braces at all") none).2 =
      ⟨Json.bool false, 0, Json.str "Error parsing LLM response: Expecting value",
        Json.arr []⟩ :=
  ((malformed_response_recovery empty_store "hi" card₀
    (fun _ => LLMResult.str "no braces at all") none).1
    "no braces at all" rfl (by decide) (by decide)).1

theorem overlay_field_some {old arg : Option String} (s : String) (ha : arg = some s)
    (hs : s ≠ "") : overlay_field old arg = some s := by
  subst ha
  simp [overlay_field, hs]

theorem overlay_field_keep {old arg : Option String} (h : arg = none ∨ arg = some "") :
    overlay_field old arg = old := by
  rcases h with h | h <;> subst h <;> simp [overlay_field]

/-- C5 counterexample: with stored name A, a call supplying name as
the empty string leaves the stored name unchanged (and publishes
nothing), where the claim says the empty string would replace it. -/
theorem empty_string_field_ignored :
    update_metadata (some { name := some "A" }) { name := some "" } =
      (some { name := some "A" }, 0) := rfl

/-- C5 amended: in the metadata produced by updateProfile, a field
supplied with a non-empty value replaces the stored field, while a
field not supplied, or supplied as the empty string, retains its
previous stored value. -/
theorem update_metadata_overlay (m : Metadata) (a : MetadataArgs) :
    ((∀ s, a.name = some s → s ≠ "" → (apply_update (some m) a).name = some s) ∧
      ((a.name = none ∨ a.name = some "") → (apply_update (some m) a).name = m.name)) ∧
    ((∀ s, a.about = some s → s ≠ "" → (apply_update (some m) a).about = some s) ∧
      ((a.about = none ∨ a.about = some "") → (apply_update (some m) a).about = m.about)) ∧
    ((∀ s, a.nip05 = some s → s ≠ "" → (apply_update (some m) a).nip05 = some s) ∧
      ((a.nip05 = none ∨ a.nip05 = some "") → (apply_update (some m) a).nip05 = m.nip05)) ∧
    ((∀ s, a.picture = some s → s ≠ "" → (apply_update (some m) a).picture = some s) ∧
      ((a.picture = none ∨ a.picture = some "") →
        (apply_update (some m) a).picture = m.picture)) ∧
    ((∀ s, a.banner = some s → s ≠ "" → (apply_update (some m) a).banner = some s) ∧
      ((a.banner = none ∨ a.banner = some "") →
        (apply_update (some m) a).banner = m.banner)) ∧
    ((∀ s, a.lud16 = some s → s ≠ "" → (apply_update (some m) a).lud16 = some s) ∧
      ((a.lud16 = none ∨ a.lud16 = some "") → (apply_update (some m) a).lud16 = m.lud16)) ∧
    ((∀ s, a.lud06 = some s → s ≠ "" → (apply_update (some m) a).lud06 = some s) ∧
      ((a.lud06 = none ∨ a.lud06 = some "") → (apply_update (some m) a).lud06 = m.lud06)) ∧
    ((∀ s, a.username = some s → s ≠ "" → (apply_update (some m) a).username = some s) ∧
      ((a.username = none ∨ a.username = some "") →
        (apply_update (some m) a).username = m.username)) ∧
    ((∀ s, a.display_name = some s → s ≠ "" →
        (apply_update (some m) a).display_name = some s) ∧
      ((a.display_name = none ∨ a.display_name = some "") →
        (apply_update (some m) a).display_name = m.display_name)) ∧
    ((∀ s, a.website = some s → s ≠ "" → (apply_update (some m) a).website = some s) ∧
      ((a.website = none ∨ a.website = some "") →
        (apply_update (some m) a).website = m.website)) :=
  ⟨⟨fun s h1 h2 => overlay_field_some s h1 h2, fun h => overlay_field_keep h⟩,
    ⟨fun s h1 h2 => overlay_field_some s h1 h2, fun h => overlay_field_keep h⟩,
    ⟨fun s h1 h2 => overlay_field_some s h1 h2, fun h => overlay_field_keep h⟩,
    ⟨fun s h1 h2 => overlay_field_some s h1 h2, fun h => overlay_field_keep h⟩,
    ⟨fun s h1 h2 => overlay_field_some s h1 h2, fun h => overlay_field_keep h⟩,
    ⟨fun s h1 h2 => overlay_field_some s h1 h2, fun h => overlay_field_keep h⟩,
    ⟨fun s h1 h2 => overlay_field_some s h1 h2, fun h => overlay_field_keep h⟩,
    ⟨fun s h1 h2 => overlay_field_some s h1 h2, fun h => overlay_field_keep h⟩,
    ⟨fun s h1 h2 => overlay_field_some s h1 h2, fun h => overlay_field_keep h⟩,
    ⟨fun s h1 h2 => overlay_field_some s h1 h2, fun h => overlay_field_keep h⟩⟩

/-- Witness for C5: a supplied non-empty name replaces, an unsupplied
about is retained. -/
theorem update_metadata_overlay_witness :
    (apply_update (some { name := some "A", about := some "bio" })
      { name := some "B" }).name = some "B" ∧
    (apply_update (some { name := some "A", about := some "bio" })
      { name := some "B" }).about = some "bio" :=
  ⟨((update_metadata_overlay { name := some "A", about := some "bio" }
      { name := some "B" }).1).1 "B" rfl (by decide),
    ((update_metadata_overlay { name := some "A", about := some "bio" }
      { name := some "B" }).2.1).2 (Or.inl rfl)⟩

/-- C6: updateProfile publishes exactly when the overlay result
differs from the stored metadata (with no stored metadata it always
publishes), and calling it twice with name X starting from no stored
metadata issues exactly one publish. -/
theorem update_metadata_idempotent (p : Metadata) (a : MetadataArgs) :
    ((update_metadata (some p) a).2 = if p = apply_update (some p) a then 0 else 1) ∧
    ((update_metadata none a).2 = 1) ∧
    ((update_metadata none { name := some "X" }).2 +
      (update_metadata (update_metadata none { name := some "X" }).1
        { name := some "X" }).2 = 1) := by
  refine ⟨?_, rfl, ?_⟩
  · rw [show update_metadata (some p) a =
        (if p = apply_update (some p) a then (some p, 0)
          else (some (apply_update (some p) a), 1)) from rfl]
    by_cases h : p = apply_update (some p) a
    · rw [if_pos h, if_pos h]
    · rw [if_neg h, if_neg h]
  · decide

/-- C7 counterexample: direct_message_listener invokes the
collaborator listening loop in the calling context, so the call does
not return before the loop ends, contradicting the claim that both
listener operations return without waiting. -/
theorem direct_message_listener_blocks :
    returns_without_waiting
      (direct_message_listener (fun s => s) "self" 5 none none).mode = false := rfl

/-- C7 amended: note_listener starts its listening loop on a spawned
thread and returns without waiting for it; direct_message_listener
runs the listening loop in the calling context and does not. -/
theorem listener_execution_modes (getPk : String → String) (selfPk : String) (now : Nat)
    (pubkeys tags : Option (List String)) (recipient : Option String)
    (ts1 ts2 : Option Nat) :
    ((note_listener getPk now pubkeys tags ts1).mode = LoopMode.spawned_thread) ∧
    (returns_without_waiting (note_listener getPk now pubkeys tags ts1).mode = true) ∧
    ((direct_message_listener getPk selfPk now recipient ts2).mode =
      LoopMode.caller_context) ∧
    (returns_without_waiting
      (direct_message_listener getPk selfPk now recipient ts2).mode = false) :=
  ⟨rfl, rfl, rfl, rfl⟩

/-- C8: a send-and-wait with no correlated reply within the timeout
yields the distinct no-response outcome, which differs from every
successful reply, including a reply with empty content. -/
theorem send_and_await_timeout_distinct (recipient message : String) (timeout : Nat) :
    (send_direct_message_and_receive_response recipient message timeout none =
      SendReceiveOutcome.no_response) ∧
    (∀ m, send_direct_message_and_receive_response recipient message timeout (some m) =
      SendReceiveOutcome.reply m) ∧
    (∀ m, SendReceiveOutcome.no_response ≠ SendReceiveOutcome.reply m) :=
  ⟨rfl, fun _ => rfl, fun m h => SendReceiveOutcome.noConfusion h⟩

theorem validate_strs_map (l : List String) :
    validate_strs (l.map Json.str) = Except.ok l := by
  induction l with
  | nil => rfl
  | cons s rest ih => simp only [List.map_cons, validate_strs, validate_str, ih]

/-- C9 counterexample: a completion response whose can_handle is the
string maybe gives an agent_router tuple the router returns as a
value, while agent_router_v2 raises a pydantic ValidationError when
constructing the RouterResponse, so it does not return a
RouterResponse holding the tuple components. -/
theorem router_v2_validation_error :
    (agent_router empty_store "hi" card₀
      (fun _ => LLMResult.str "\x7b\"can_handle\": \"maybe\"\x7d") none).2.canHandle =
        Json.str "maybe" ∧
    (agent_router_v2 empty_store "hi" card₀
      (fun _ => LLMResult.str "\x7b\"can_handle\": \"maybe\"\x7d") none).2 =
        Except.error "Input should be a valid boolean" :=
  ⟨rfl, rfl⟩

/-- C9 amended: agent_router_v2 always has the same effect on the
conversation store as agent_router; when the four tuple components
already conform to the declared field types - can_handle a bool,
user_message a string, skills_used a list of strings - the returned
RouterResponse holds exactly those components; otherwise pydantic
validation coerces the value (the integer 1 becomes True) or raises a
ValidationError, so no RouterResponse with the raw components is
returned. -/
theorem agent_router_v2_refinement (st : Store) (msg : String) (card : AgentCard)
    (llm : LLM) (tid : Option String) :
    ((agent_router_v2 st msg card llm tid).1 = (agent_router st msg card llm tid).1) ∧
    (∀ (b : Bool) (cost : Int) (um : String) (su : List String),
      (agent_router st msg card llm tid).2 =
        ⟨Json.bool b, cost, Json.str um, Json.arr (su.map Json.str)⟩ →
      (agent_router_v2 st msg card llm tid).2 =
        Except.ok ⟨b, cost, um, su⟩) ∧
    (validate_bool (Json.num 1) = Except.ok true) := by
  refine ⟨rfl, ?_, rfl⟩
  intro b cost um su h
  have hv : (agent_router_v2 st msg card llm tid).2 =
      mk_router_response (agent_router st msg card llm tid).2.canHandle
        (agent_router st msg card llm tid).2.cost
        (agent_router st msg card llm tid).2.userMessage
        (agent_router st msg card llm tid).2.skillsUsed := rfl
  rw [hv, h]
  simp only [mk_router_response, validate_bool, validate_str, validate_str_list,
    validate_strs_map]

/-- Witness for C9 at the spec section 8 scenario: the conforming
tuple passes through unchanged. -/
theorem agent_router_v2_refinement_witness :
    (agent_router_v2 empty_store "translate this" card₀ llm₀ none).2 =
      Except.ok ⟨true, 150, "Sure.", ["translate"]⟩ :=
  (agent_router_v2_refinement empty_store "translate this" card₀ llm₀ none).2.1
    true 150 "Sure." ["translate"] rfl

/-- C10: for every route call carrying a (truthy) thread id, the
conversation store entry is replaced with the combined text before the
completion capability is invoked: the stored value does not depend on
the completion outcome, and it is updated even when the call ends in
the error-recovery decision. -/
theorem store_updated_before_completion (st : Store) (msg : String) (card : AgentCard)
    (t : String) (llm : LLM) (h : t ≠ "") :
    ((agent_router st msg card llm (some t)).1 t =
      some (combined_text st (some t) msg)) ∧
    (∀ llm2 : LLM, (agent_router st msg card llm (some t)).1 =
      (agent_router st msg card llm2 (some t)).1) ∧
    (∀ e, llm (agent_prompt card (combined_text st (some t) msg)) = LLMResult.raise e →
      (agent_router st msg card llm (some t)).2.canHandle = Json.bool false ∧
      (agent_router st msg card llm (some t)).1 t =
        some (combined_text st (some t) msg)) := by
  have hb : (t == "") = false := by simpa using h
  have hstore : (agent_router st msg card llm (some t)).1 t =
      some (combined_text st (some t) msg) := by
    simp only [agent_router, new_store, hb, Bool.false_eq_true, if_false]
    exact if_pos trivial
  refine ⟨hstore, fun _ => rfl, ?_⟩
  intro e he
  refine ⟨?_, hstore⟩
  rw [show (agent_router st msg card llm (some t)).2 =
        route_response card (llm (agent_prompt card (combined_text st (some t) msg)))
      from rfl, he]
  rfl

/-- Witness for C10: with a raising completion capability and thread
t9, the store still receives the request text. -/
theorem store_updated_before_completion_witness :
    (agent_router empty_store "hello" card₀
      (fun _ => LLMResult.raise "down") (some "t9")).1 "t9" = some "hello" :=
  (store_updated_before_completion empty_store "hello" card₀ "t9"
    (fun _ => LLMResult.raise "down") (by decide)).1

end Agentstr
